import Mathlib

/-
Verification of the cascade delay engine of the SkyDelay repository
(src/processing/cascade_calculator.py) against its specification.

Shallow embedding notes.
The Flight Record Store (a read-only table queried by the engine) is
embedded as a list of FlightRecord values; the three SQL passes of
calculate_cascade_impact (direct count, delayed arrival / outbound
projections, join + group + sort) are embedded as list operations in the
same order.  Numbers: times and counts are naturals, gaps are integers,
delays and money are rationals.  The Python builtins are modelled exactly:
int truncates toward zero (pyInt), round uses round half to even (pyRound,
round2 at two decimals).  All definitions are executable.
-/

namespace SkyDelay

/-- Python int(q): truncation toward zero.  Rat.floor is used (rather than
the floor bracket) so that the kernel can evaluate it on literals. -/
def pyInt (q : ℚ) : ℤ :=
  if q < 0 then -Rat.floor (-q) else Rat.floor q

/-- Python round(q) to an integer: nearest integer, ties go to the even
neighbour (banker rounding, the Python 3 behaviour). -/
def pyRound (q : ℚ) : ℤ :=
  if Int.fract q < 1/2 then ⌊q⌋
  else if 1/2 < Int.fract q then ⌊q⌋ + 1
  else if ⌊q⌋ % 2 = 0 then ⌊q⌋ else ⌊q⌋ + 1

/-- Python round(q, 2): round to two decimal places. -/
def round2 (q : ℚ) : ℚ :=
  (pyRound (q * 100) : ℚ) / 100

/-- Cost parameter of cascade_calculator.py: 0.74 dollars per minute per
passenger (written as the reduced fraction 37/50 so that the kernel can
evaluate comparisons on it). -/
def COST_PER_MINUTE_PASSENGER : ℚ := ⟨37, 50, by decide, by norm_num⟩

/-- Cost parameter of cascade_calculator.py: 68.48 dollars per minute per
delayed flight, as the reduced fraction 1712/25. -/
def COST_PER_MINUTE_AIRLINE_OPS : ℚ := ⟨1712, 25, by decide, by norm_num⟩

/-- Load factor of cascade_calculator.py: 0.87, as the fraction 87/100. -/
def AVG_LOAD_FACTOR : ℚ := ⟨87, 100, by decide, by norm_num⟩

/-- Average seats per domestic flight in cascade_calculator.py: 160. -/
def AVG_SEATS_DOMESTIC : ℚ := 160

/-- The cost model configuration of spec section 4.3.  In the source these
are the four module level constants above; the spec directs that they be
an explicit configuration record, with the source constants as the default
values. -/
structure CostConfig where
  passenger_rate : ℚ
  airline_ops_rate : ℚ
  load_factor : ℚ
  avg_seats : ℚ
deriving DecidableEq

/-- The configuration actually baked into cascade_calculator.py. -/
def defaultConfig : CostConfig :=
  ⟨COST_PER_MINUTE_PASSENGER, COST_PER_MINUTE_AIRLINE_OPS,
   AVG_LOAD_FACTOR, AVG_SEATS_DOMESTIC⟩

/-- One row of the raw_bts_flights table, restricted to the columns the
engine reads.  Delay columns are nullable; scheduled times are nullable
HHMM integers; cancelled is the 0/1 flag of the table. -/
structure FlightRecord where
  flightdate : String
  airline : String
  flight_num : String
  origin : String
  dest : String
  crsdeptime : Option ℕ
  crsarrtime : Option ℕ
  depdelayminutes : Option ℚ
  arrdelayminutes : Option ℚ
  cancelled : ℕ
deriving DecidableEq

/-- hhmm_to_minutes of cascade_calculator.py: HHMM integer to minutes
since midnight, floor(t / 100) * 60 + t mod 100. -/
def hhmm_to_minutes (t : ℕ) : ℕ :=
  (t / 100) * 60 + t % 100

/-- The dest = airport, flightdate = date, arrdelayminutes not null and
strictly positive test of the direct count query (step 1). -/
def posDelay : Option ℚ → Bool
  | some d => decide (0 < d)
  | none => false

/-- Step 1 of calculate_cascade_impact: the count of directly affected
arriving flights. -/
def direct_count (flights : List FlightRecord) (airport date : String) : ℕ :=
  (flights.filter (fun r =>
    decide (r.dest = airport) && decide (r.flightdate = date) &&
      posDelay r.arrdelayminutes)).length

/-- A row of the delayed_arrivals CTE: airline, scheduled arrival in
minutes since midnight, arrival delay, origin of the inbound leg. -/
structure Arrival where
  airline : String
  arr_minutes : ℕ
  arr_delay : ℚ
  arrived_from : String
deriving DecidableEq

/-- Projection of the inbound arrivals into the airport on the date whose
arrival delay satisfies keep.  Rows with a null arrival delay are dropped
by the SQL filter; rows with a null scheduled arrival time are kept by the
SQL with a null arr_minutes, and a null arr_minutes can never satisfy the
strict comparisons of the join, so they are dropped here at projection
with no effect on any match. -/
def arrivalsWhere (flights : List FlightRecord) (airport date : String)
    (keep : ℚ → Bool) : List Arrival :=
  flights.filterMap (fun r =>
    match r.crsarrtime, r.arrdelayminutes with
    | some t, some d =>
      if decide (r.dest = airport) && decide (r.flightdate = date) && keep d then
        some ⟨r.airline, hhmm_to_minutes t, d, r.origin⟩
      else none
    | _, _ => none)

/-- The delayed_arrivals CTE of the cascade query: inbound arrivals with
arrdelayminutes at least 15. -/
def delayedArrivals (flights : List FlightRecord) (airport date : String) :
    List Arrival :=
  arrivalsWhere flights airport date (fun d => decide (15 ≤ d))

/-- A row of the outbound_flights CTE. -/
structure Outbound where
  airline : String
  flight_num : String
  outbound_dest : String
  dep_minutes : ℕ
  depdelayminutes : Option ℚ
deriving DecidableEq

/-- The outbound_flights CTE: non cancelled departures from the airport on
the date with a non null scheduled departure time. -/
def outboundFlights (flights : List FlightRecord) (airport date : String) :
    List Outbound :=
  flights.filterMap (fun r =>
    match r.crsdeptime with
    | some t =>
      if decide (r.origin = airport) && decide (r.flightdate = date) &&
          decide (r.cancelled = 0) then
        some ⟨r.airline, r.flight_num, r.dest, hhmm_to_minutes t, r.depdelayminutes⟩
      else none
    | none => none)

/-- The join condition of the cascade_matches CTE: same airline, outbound
departs strictly after the inbound arrives, turnaround gap between 20 and
min_turnaround_minutes + int(delay_minutes), and the inbound delay
strictly exceeds the gap. -/
abbrev matchCond (minTurn : ℕ) (delay : ℚ) (o : Outbound) (a : Arrival) : Prop :=
  o.airline = a.airline ∧
  a.arr_minutes < o.dep_minutes ∧
  20 ≤ (o.dep_minutes : ℤ) - (a.arr_minutes : ℤ) ∧
  (o.dep_minutes : ℤ) - (a.arr_minutes : ℤ) ≤ (minTurn : ℤ) + pyInt delay ∧
  (((o.dep_minutes : ℤ) - (a.arr_minutes : ℤ) : ℤ) : ℚ) < a.arr_delay

/-- A row of the cascade_matches CTE.  The SQL projects the destination,
flight number, outbound delay, inbound delay, gap and inbound origin; the
two raw minute fields are retained as well so the invariants can speak
about the underlying scheduled times. -/
structure CascadeMatch where
  outbound_dest : String
  flight_num : String
  depdelayminutes : Option ℚ
  inbound_delay : ℚ
  turnaround_gap : ℤ
  arrived_from : String
  arr_minutes : ℕ
  dep_minutes : ℕ
deriving DecidableEq

/-- Build the cascade_matches row for an accepted pair. -/
def mkCascadeMatch (o : Outbound) (a : Arrival) : CascadeMatch :=
  ⟨o.outbound_dest, o.flight_num, o.depdelayminutes, a.arr_delay,
   (o.dep_minutes : ℤ) - (a.arr_minutes : ℤ), a.arrived_from,
   a.arr_minutes, o.dep_minutes⟩

/-- The cascade_matches CTE: inner join of outbound_flights with
delayed_arrivals on the airline under the window conditions. -/
def cascadeMatches (flights : List FlightRecord) (airport date : String)
    (delay : ℚ) (minTurn : ℕ) : List CascadeMatch :=
  (outboundFlights flights airport date).flatMap (fun o =>
    ((delayedArrivals flights airport date).filter
        (fun a => decide (matchCond minTurn delay o a))).map
      (mkCascadeMatch o))

/-- Number of accepted matches whose outbound destination is d. -/
def destMatchCount (ms : List CascadeMatch) (d : String) : ℕ :=
  (ms.filter (fun m => decide (m.outbound_dest = d))).length

/-- The GROUP BY outbound_dest of the cascade query, as a list of
(destination, match count) pairs, one per distinct destination. -/
def destCounts (ms : List CascadeMatch) : List (String × ℕ) :=
  ((ms.map (fun m => m.outbound_dest)).dedup).map
    (fun d => (d, destMatchCount ms d))

/-- ORDER BY affected_flights DESC: x may come before y when the count of
y is at most the count of x. -/
def countGE (x y : String × ℕ) : Prop := y.2 ≤ x.2

instance : DecidableRel countGE := fun x y => Nat.decLe y.2 x.2

instance : IsTotal (String × ℕ) countGE := ⟨fun x y => Nat.le_total y.2 x.2⟩

instance : IsTrans (String × ℕ) countGE :=
  ⟨fun _ _ _ h1 h2 => Nat.le_trans h2 h1⟩

/-- The grouped rows of the cascade query in the ORDER BY affected_flights
DESC order produced by the SQL (a stable sort on descending count). -/
def sortedDestCounts (ms : List CascadeMatch) : List (String × ℕ) :=
  (destCounts ms).insertionSort countGE

/-- The CascadeResult dataclass of cascade_calculator.py. -/
structure CascadeResult where
  origin_airport : String
  trigger_delay_minutes : ℚ
  directly_affected_flights : ℕ
  cascade_affected_flights : ℕ
  total_affected_passengers : ℤ
  estimated_passenger_cost : ℚ
  estimated_airline_cost : ℚ
  total_economic_impact : ℚ
  affected_destinations : List String
deriving DecidableEq

/-- The local n_cascade of calculate_cascade_impact: the sum of the
affected_flights column of the grouped cascade rows (0 on an empty
frame, exactly as the Python sum over an empty column). -/
def n_cascade (flights : List FlightRecord) (airport date : String)
    (delay : ℚ) (minTurn : ℕ) : ℕ :=
  ((sortedDestCounts (cascadeMatches flights airport date delay minTurn)).map
    Prod.snd).sum

/-- The local affected_dests of calculate_cascade_impact: the
outbound_dest column of the grouped, ordered cascade rows. -/
def affected_dests (flights : List FlightRecord) (airport date : String)
    (delay : ℚ) (minTurn : ℕ) : List String :=
  (sortedDestCounts (cascadeMatches flights airport date delay minTurn)).map
    Prod.fst

/-- The local total_flights of calculate_cascade_impact. -/
def total_flights (flights : List FlightRecord) (airport date : String)
    (delay : ℚ) (minTurn : ℕ) : ℕ :=
  direct_count flights airport date + n_cascade flights airport date delay minTurn

/-- The local total_pax of calculate_cascade_impact:
int(total_flights * AVG_SEATS_DOMESTIC * AVG_LOAD_FACTOR). -/
def total_pax (flights : List FlightRecord) (airport date : String)
    (delay : ℚ) (cfg : CostConfig) (minTurn : ℕ) : ℤ :=
  pyInt ((total_flights flights airport date delay minTurn : ℚ) *
    cfg.avg_seats * cfg.load_factor)

/-- The local avg_delay of calculate_cascade_impact: the trigger delay
when any flight is affected, otherwise 0. -/
def avg_delay (flights : List FlightRecord) (airport date : String)
    (delay : ℚ) (minTurn : ℕ) : ℚ :=
  if 0 < total_flights flights airport date delay minTurn then delay else 0

/-- The local pax_cost of calculate_cascade_impact. -/
def pax_cost (flights : List FlightRecord) (airport date : String)
    (delay : ℚ) (cfg : CostConfig) (minTurn : ℕ) : ℚ :=
  (total_pax flights airport date delay cfg minTurn : ℚ) *
    avg_delay flights airport date delay minTurn * cfg.passenger_rate

/-- The local airline_cost of calculate_cascade_impact. -/
def airline_cost (flights : List FlightRecord) (airport date : String)
    (delay : ℚ) (cfg : CostConfig) (minTurn : ℕ) : ℚ :=
  (total_flights flights airport date delay minTurn : ℚ) *
    avg_delay flights airport date delay minTurn * cfg.airline_ops_rate

/-- The local total_cost of calculate_cascade_impact. -/
def total_cost (flights : List FlightRecord) (airport date : String)
    (delay : ℚ) (cfg : CostConfig) (minTurn : ℕ) : ℚ :=
  pax_cost flights airport date delay cfg minTurn +
    airline_cost flights airport date delay cfg minTurn

/-- calculate_cascade_impact of cascade_calculator.py.  The duckdb
connection argument becomes the flights list; cfg carries the four module
level cost constants (defaultConfig reproduces the source values; the
Python default for min_turnaround_minutes is 45).  The locals of the
Python body are the component definitions above. -/
def calculate_cascade_impact (flights : List FlightRecord)
    (airport date : String) (delay_minutes : ℚ) (cfg : CostConfig)
    (min_turnaround_minutes : ℕ) : CascadeResult :=
  { origin_airport := airport
    trigger_delay_minutes := delay_minutes
    directly_affected_flights := direct_count flights airport date
    cascade_affected_flights :=
      n_cascade flights airport date delay_minutes min_turnaround_minutes
    total_affected_passengers :=
      total_pax flights airport date delay_minutes cfg min_turnaround_minutes
    estimated_passenger_cost :=
      round2 (pax_cost flights airport date delay_minutes cfg min_turnaround_minutes)
    estimated_airline_cost :=
      round2 (airline_cost flights airport date delay_minutes cfg min_turnaround_minutes)
    total_economic_impact :=
      round2 (total_cost flights airport date delay_minutes cfg min_turnaround_minutes)
    affected_destinations :=
      (affected_dests flights airport date delay_minutes min_turnaround_minutes).take 20 }

/-- The inbound candidate set described by the spec sentence taking all
arrivals with any positive delay: the same join as cascadeMatches but with
the 15 minute prefilter of delayed_arrivals replaced by the plain positive
delay test (the comparison definition for the refinement claim about the
prefilter). -/
def cascadeMatchesAllPositive (flights : List FlightRecord)
    (airport date : String) (delay : ℚ) (minTurn : ℕ) : List CascadeMatch :=
  (outboundFlights flights airport date).flatMap (fun o =>
    ((arrivalsWhere flights airport date (fun d => decide (0 < d))).filter
        (fun a => decide (matchCond minTurn delay o a))).map
      (mkCascadeMatch o))

/-- A small concrete snapshot used by witnesses and counterexamples: one
delayed inbound arrival into ORD (scheduled 06:00, 100 minutes late) and
two same airline outbound departures from ORD at 06:30 and 06:40. -/
def sampleFlights : List FlightRecord :=
  [⟨"2025-10-15", "AA", "100", "AAA", "ORD", none, some 600, some 5, some 100, 0⟩,
   ⟨"2025-10-15", "AA", "200", "ORD", "XAA", some 630, none, some 5, none, 0⟩,
   ⟨"2025-10-15", "AA", "300", "ORD", "YBB", some 640, none, some 5, none, 0⟩]

/-- The one accepted match of sampleFlights whose outbound leg is the
06:30 departure to XAA. -/
def sampleMatch : CascadeMatch :=
  mkCascadeMatch ⟨"AA", "200", "XAA", 390, some 5⟩ ⟨"AA", 360, 100, "AAA"⟩

/-- A snapshot with three delayed arrivals into ORD and no usable
outbound rows at all. -/
def threeArrivals : List FlightRecord :=
  [⟨"2025-10-15", "AA", "1", "AAA", "ORD", none, some 600, none, some 30, 0⟩,
   ⟨"2025-10-15", "AA", "2", "BBB", "ORD", none, some 700, none, some 30, 0⟩,
   ⟨"2025-10-15", "AA", "3", "CCC", "ORD", none, some 800, none, some 30, 0⟩]

/-- A snapshot with a single delayed arrival into ORD and no usable
outbound rows. -/
def oneArrival : List FlightRecord :=
  [⟨"2025-10-15", "AA", "1", "AAA", "ORD", none, some 600, none, some 30, 0⟩]

/-- A snapshot for ORD with an early inbound arrival (negative delay) and
an outbound departure, so no inbound is delayed at all. -/
def noDelayedArrivals : List FlightRecord :=
  [⟨"2025-10-15", "AA", "1", "AAA", "ORD", none, some 600, none, some (-5), 0⟩,
   ⟨"2025-10-15", "AA", "2", "ORD", "XAA", some 630, none, some 5, none, 0⟩]

/-! Facts about the Python rounding builtins as embedded above. -/

lemma ratFloor_eq_intFloor (q : ℚ) : Rat.floor q = ⌊q⌋ := by
  rw [Rat.floor_def']
  exact Rat.floor_def.symm

lemma pyInt_eq_floor {q : ℚ} (h : 0 ≤ q) : pyInt q = ⌊q⌋ := by
  rw [pyInt, if_neg (not_lt.2 h), ratFloor_eq_intFloor]

lemma pyInt_nonneg {q : ℚ} (h : 0 ≤ q) : 0 ≤ pyInt q := by
  rw [pyInt_eq_floor h]
  exact Int.floor_nonneg.2 h

lemma pyInt_le {q : ℚ} (h : 0 ≤ q) : (pyInt q : ℚ) ≤ q := by
  rw [pyInt_eq_floor h]
  exact Int.floor_le q

lemma pyInt_mono {q1 q2 : ℚ} (h0 : 0 ≤ q1) (h : q1 ≤ q2) :
    pyInt q1 ≤ pyInt q2 := by
  rw [pyInt_eq_floor h0, pyInt_eq_floor (h0.trans h)]
  exact Int.floor_mono h

lemma pyInt_zero : pyInt 0 = 0 := by decide

lemma le_pyRound (q : ℚ) : q - 1/2 ≤ (pyRound q : ℚ) := by
  have hf := Int.self_sub_floor q
  have h0 := Int.fract_nonneg q
  have h1 := Int.fract_lt_one q
  unfold pyRound
  split_ifs <;> push_cast <;> linarith

lemma pyRound_le (q : ℚ) : (pyRound q : ℚ) ≤ q + 1/2 := by
  have hf := Int.self_sub_floor q
  have h0 := Int.fract_nonneg q
  have h1 := Int.fract_lt_one q
  unfold pyRound
  split_ifs <;> push_cast <;> linarith

lemma pyRound_mono {q1 q2 : ℚ} (h : q1 ≤ q2) : pyRound q1 ≤ pyRound q2 := by
  by_contra hc
  push_neg at hc
  have h1 : (pyRound q2 : ℚ) + 1 ≤ (pyRound q1 : ℚ) := by
    exact_mod_cast Int.add_one_le_iff.2 hc
  have hb1 := pyRound_le q1
  have hb2 := le_pyRound q2
  have he : q1 = q2 := le_antisymm h (by linarith)
  subst he
  exact lt_irrefl _ hc

lemma pyRound_intCast (z : ℤ) : pyRound (z : ℚ) = z := by
  unfold pyRound
  rw [Int.fract_intCast, if_pos (by norm_num), Int.floor_intCast]

lemma pyRound_nonneg {q : ℚ} (h : 0 ≤ q) : 0 ≤ pyRound q := by
  have h0 : 0 ≤ ⌊q⌋ := Int.floor_nonneg.2 h
  unfold pyRound
  split_ifs <;> omega

lemma round2_mono {q1 q2 : ℚ} (h : q1 ≤ q2) : round2 q1 ≤ round2 q2 := by
  unfold round2
  have hm := pyRound_mono (mul_le_mul_of_nonneg_right h (by norm_num : (0:ℚ) ≤ 100))
  gcongr

lemma round2_nonneg {q : ℚ} (h : 0 ≤ q) : 0 ≤ round2 q := by
  unfold round2
  apply div_nonneg _ (by norm_num)
  exact_mod_cast pyRound_nonneg (mul_nonneg h (by norm_num))

lemma round2_zero : round2 0 = 0 := by
  unfold round2
  rw [zero_mul, show (0:ℚ) = ((0:ℤ):ℚ) by norm_num, pyRound_intCast]
  norm_num

lemma round2_cents {q : ℚ} (c : ℤ) (h : q * 100 = (c : ℚ)) : round2 q = q := by
  unfold round2
  rw [h, pyRound_intCast, eq_comm, eq_div_iff (by norm_num : (100:ℚ) ≠ 0)]
  exact h

/-! The decimal values of the cost constants. -/

lemma passenger_rate_eq : COST_PER_MINUTE_PASSENGER = 74/100 := by
  rw [COST_PER_MINUTE_PASSENGER, Rat.mk'_eq_divInt, Rat.divInt_eq_div]
  norm_num

lemma airline_rate_eq : COST_PER_MINUTE_AIRLINE_OPS = 6848/100 := by
  rw [COST_PER_MINUTE_AIRLINE_OPS, Rat.mk'_eq_divInt, Rat.divInt_eq_div]
  norm_num

lemma load_factor_eq : AVG_LOAD_FACTOR = 87/100 := by
  rw [AVG_LOAD_FACTOR, Rat.mk'_eq_divInt, Rat.divInt_eq_div]
  norm_num

/-! Grouping: the affected_flights column of the grouped frame sums to the
number of match rows, because the distinct destinations partition them. -/

lemma sum_map_ite_not_mem {k : String} {ds : List String} (h : k ∉ ds) :
    (ds.map (fun d => if k = d then (1:ℕ) else 0)).sum = 0 := by
  induction ds with
  | nil => simp
  | cons d tl ih =>
    simp only [List.mem_cons, not_or] at h
    simp only [List.map_cons, List.sum_cons, if_neg h.1, ih h.2]

lemma sum_map_ite_mem {k : String} {ds : List String} (hnd : ds.Nodup)
    (h : k ∈ ds) :
    (ds.map (fun d => if k = d then (1:ℕ) else 0)).sum = 1 := by
  induction ds with
  | nil => cases h
  | cons d tl ih =>
    rw [List.nodup_cons] at hnd
    simp only [List.map_cons, List.sum_cons]
    rcases List.mem_cons.1 h with he | hm
    · subst he
      rw [if_pos rfl, sum_map_ite_not_mem hnd.1]
    · rw [if_neg (fun (he : k = d) => hnd.1 (he ▸ hm)), ih hnd.2 hm]

lemma destMatchCount_cons (m : CascadeMatch) (tl : List CascadeMatch)
    (d : String) :
    destMatchCount (m :: tl) d =
      (if m.outbound_dest = d then 1 else 0) + destMatchCount tl d := by
  by_cases hd : m.outbound_dest = d
  · simp [destMatchCount, List.filter_cons, hd]
    omega
  · simp [destMatchCount, List.filter_cons, hd]

lemma length_eq_sum_counts (ms : List CascadeMatch) (ds : List String)
    (hnd : ds.Nodup) (hall : ∀ m ∈ ms, m.outbound_dest ∈ ds) :
    (ds.map (fun d => destMatchCount ms d)).sum = ms.length := by
  induction ms with
  | nil => simp [destMatchCount]
  | cons m tl ih =>
    have hmem : m.outbound_dest ∈ ds := hall m (List.mem_cons_self m tl)
    have htl : ∀ x ∈ tl, x.outbound_dest ∈ ds :=
      fun x hx => hall x (List.mem_cons_of_mem m hx)
    simp only [destMatchCount_cons, List.sum_map_add, List.length_cons]
    rw [sum_map_ite_mem hnd hmem, ih htl]
    omega

lemma sum_destCounts (ms : List CascadeMatch) :
    ((destCounts ms).map Prod.snd).sum = ms.length := by
  unfold destCounts
  rw [List.map_map]
  exact length_eq_sum_counts ms _ (List.nodup_dedup _)
    (fun m hm => List.mem_dedup.2 (List.mem_map_of_mem _ hm))

lemma sum_sortedDestCounts (ms : List CascadeMatch) :
    ((sortedDestCounts ms).map Prod.snd).sum = ms.length := by
  unfold sortedDestCounts
  rw [List.Perm.sum_eq
    (List.Perm.map Prod.snd (List.perm_insertionSort countGE (destCounts ms)))]
  exact sum_destCounts ms

lemma n_cascade_eq_length (flights : List FlightRecord) (airport date : String)
    (delay : ℚ) (minTurn : ℕ) :
    n_cascade flights airport date delay minTurn =
      (cascadeMatches flights airport date delay minTurn).length :=
  sum_sortedDestCounts _

/-! Monotonicity of the match set in the window parameters. -/

lemma matchCond_impl {m1 m2 : ℕ} {d1 d2 : ℚ} (hm : m1 ≤ m2)
    (hpy : pyInt d1 ≤ pyInt d2) (o : Outbound) (a : Arrival)
    (h : matchCond m1 d1 o a) : matchCond m2 d2 o a := by
  obtain ⟨h1, h2, h3, h4, h5⟩ := h
  refine ⟨h1, h2, h3, h4.trans (add_le_add (by exact_mod_cast hm) hpy), h5⟩

lemma cascadeMatches_length_mono (flights : List FlightRecord)
    (airport date : String) {d1 d2 : ℚ} {m1 m2 : ℕ}
    (hpy : pyInt d1 ≤ pyInt d2) (hm : m1 ≤ m2) :
    (cascadeMatches flights airport date d1 m1).length ≤
      (cascadeMatches flights airport date d2 m2).length := by
  unfold cascadeMatches
  rw [List.length_flatMap, List.length_flatMap]
  apply List.sum_le_sum
  intro o _
  simp only [Function.comp_apply, List.length_map]
  apply List.Sublist.length_le
  apply List.monotone_filter_right
  intro a ha
  exact decide_eq_true (matchCond_impl hm hpy o a (of_decide_eq_true ha))

/-! The 15 minute prefilter of delayed_arrivals is invisible: any accepted
match forces an inbound delay above 20 minutes. -/

lemma delayedArrivals_eq_filter (flights : List FlightRecord)
    (airport date : String) :
    delayedArrivals flights airport date =
      (arrivalsWhere flights airport date (fun d => decide (0 < d))).filter
        (fun a => decide (15 ≤ a.arr_delay)) := by
  unfold delayedArrivals arrivalsWhere
  rw [List.filter_filterMap]
  apply List.filterMap_congr
  intro r _
  rcases hr : r.crsarrtime with _ | t <;>
    rcases hd : r.arrdelayminutes with _ | dl <;>
      simp only [hr, hd, Option.filter]
  by_cases hdest : r.dest = airport
  · by_cases hdate : r.flightdate = date
    · by_cases h15 : (15:ℚ) ≤ dl
      · have h0 : (0:ℚ) < dl := lt_of_lt_of_le (by norm_num) h15
        simp [hdest, hdate, h15, h0]
      · by_cases h0 : (0:ℚ) < dl <;> simp [hdest, hdate, h15, h0]
    · simp [hdate]
  · simp [hdest]

lemma cascadeMatches_eq_allPositive (flights : List FlightRecord)
    (airport date : String) (delay : ℚ) (minTurn : ℕ) :
    cascadeMatches flights airport date delay minTurn =
      cascadeMatchesAllPositive flights airport date delay minTurn := by
  unfold cascadeMatches cascadeMatchesAllPositive
  congr 1
  funext o
  rw [delayedArrivals_eq_filter, List.filter_filter]
  congr 1
  apply List.filter_congr
  intro a _
  by_cases hc : matchCond minTurn delay o a
  · have h20q : (20:ℚ) ≤ (o.dep_minutes : ℚ) - (a.arr_minutes : ℚ) := by
      exact_mod_cast hc.2.2.1
    have hlt := hc.2.2.2.2
    have h15 : (15:ℚ) ≤ a.arr_delay := by
      push_cast at hlt
      linarith
    simp [hc, h15]
  · simp [hc]

/-! Destructuring membership in the match list. -/

lemma mem_cascadeMatches {flights : List FlightRecord} {airport date : String}
    {delay : ℚ} {minTurn : ℕ} {m : CascadeMatch}
    (hm : m ∈ cascadeMatches flights airport date delay minTurn) :
    ∃ o a, matchCond minTurn delay o a ∧ m = mkCascadeMatch o a := by
  unfold cascadeMatches at hm
  rw [List.mem_flatMap] at hm
  obtain ⟨o, _, hm⟩ := hm
  rw [List.mem_map] at hm
  obtain ⟨a, ha, rfl⟩ := hm
  rw [List.mem_filter] at ha
  exact ⟨o, a, of_decide_eq_true ha.2, rfl⟩

/-! The ordered destination rows: membership and sortedness. -/

lemma mem_sortedDestCounts {ms : List CascadeMatch} {p : String × ℕ}
    (h : p ∈ sortedDestCounts ms) : p.2 = destMatchCount ms p.1 := by
  unfold sortedDestCounts at h
  have hp := (List.perm_insertionSort countGE (destCounts ms)).mem_iff.1 h
  unfold destCounts at hp
  rw [List.mem_map] at hp
  obtain ⟨d, _, rfl⟩ := hp
  rfl

lemma sorted_sortedDestCounts (ms : List CascadeMatch) :
    List.Sorted countGE (sortedDestCounts ms) :=
  List.sorted_insertionSort countGE _

lemma pairwise_affected_dests (flights : List FlightRecord)
    (airport date : String) (delay : ℚ) (minTurn : ℕ) :
    List.Pairwise (fun d1 d2 =>
        destMatchCount (cascadeMatches flights airport date delay minTurn) d2 ≤
          destMatchCount (cascadeMatches flights airport date delay minTurn) d1)
      (affected_dests flights airport date delay minTurn) := by
  unfold affected_dests
  rw [List.pairwise_map]
  exact List.Pairwise.imp_of_mem
    (fun {a b} ha hb hr => by
      rw [← mem_sortedDestCounts ha, ← mem_sortedDestCounts hb]
      exact hr)
    (sorted_sortedDestCounts _)

/-! The degenerate zero flight case of the cost model. -/

lemma total_pax_of_zero {flights : List FlightRecord} {airport date : String}
    {delay : ℚ} {cfg : CostConfig} {minTurn : ℕ}
    (h : total_flights flights airport date delay minTurn = 0) :
    total_pax flights airport date delay cfg minTurn = 0 := by
  unfold total_pax
  rw [h]
  simp [pyInt_zero]

/-! The cost constants as the decimal values of the source. -/

lemma defaultConfig_passenger_rate : defaultConfig.passenger_rate = 74/100 :=
  passenger_rate_eq

lemma defaultConfig_airline_ops_rate :
    defaultConfig.airline_ops_rate = 6848/100 :=
  airline_rate_eq

lemma defaultConfig_load_factor : defaultConfig.load_factor = 87/100 :=
  load_factor_eq

lemma defaultConfig_avg_seats : defaultConfig.avg_seats = 160 := rfl

/-- C1: for every accepted CascadeMatch of calculate_cascade_impact with a
nonnegative trigger delay, the outbound scheduled departure (minutes since
midnight) strictly exceeds the inbound scheduled arrival, the gap lies in
the closed interval from 20 to min_turnaround + trigger_delay, and the
inbound arrival delay strictly exceeds the gap. -/
theorem c1_match_invariants (flights : List FlightRecord)
    (airport date : String) (delay : ℚ) (minTurn : ℕ) (hd : 0 ≤ delay)
    (m : CascadeMatch)
    (hm : m ∈ cascadeMatches flights airport date delay minTurn) :
    m.arr_minutes < m.dep_minutes ∧
    20 ≤ m.turnaround_gap ∧
    (m.turnaround_gap : ℚ) ≤ (minTurn : ℚ) + delay ∧
    (m.turnaround_gap : ℚ) < m.inbound_delay := by
  obtain ⟨o, a, hc, rfl⟩ := mem_cascadeMatches hm
  obtain ⟨h1, h2, h3, h4, h5⟩ := hc
  refine ⟨h2, h3, ?_, h5⟩
  have h4q : (((o.dep_minutes : ℤ) - (a.arr_minutes : ℤ) : ℤ) : ℚ) ≤
      (((minTurn : ℤ) + pyInt delay : ℤ) : ℚ) := by exact_mod_cast h4
  have hpy : (pyInt delay : ℚ) ≤ delay := pyInt_le hd
  show (((o.dep_minutes : ℤ) - (a.arr_minutes : ℤ) : ℤ) : ℚ) ≤ (minTurn : ℚ) + delay
  push_cast at h4q ⊢
  linarith

/-- Witness for C1 on the sample snapshot with trigger delay 90 and
turnaround 45: the accepted 06:30 XAA match satisfies every invariant. -/
theorem c1_match_invariants_witness :
    sampleMatch.arr_minutes < sampleMatch.dep_minutes ∧
    20 ≤ sampleMatch.turnaround_gap ∧
    (sampleMatch.turnaround_gap : ℚ) ≤ ((45:ℕ) : ℚ) + 90 ∧
    (sampleMatch.turnaround_gap : ℚ) < sampleMatch.inbound_delay :=
  c1_match_invariants sampleFlights "ORD" "2025-10-15" 90 45 (by decide)
    sampleMatch (by decide)

/-- C5: with airport, date and trigger delay fixed, the cascade flight
count is monotonically non decreasing in min_turnaround_minutes. -/
theorem c5_cascade_monotone_in_turnaround (flights : List FlightRecord)
    (airport date : String) (delay : ℚ) (cfg : CostConfig) {m1 m2 : ℕ}
    (_hpos : 0 < m1) (h12 : m1 ≤ m2) :
    (calculate_cascade_impact flights airport date delay cfg m1).cascade_affected_flights ≤
      (calculate_cascade_impact flights airport date delay cfg m2).cascade_affected_flights := by
  show n_cascade flights airport date delay m1 ≤
    n_cascade flights airport date delay m2
  rw [n_cascade_eq_length, n_cascade_eq_length]
  exact cascadeMatches_length_mono flights airport date le_rfl h12

/-- Witness for C5: sample snapshot, trigger 90, turnarounds 45 and 60. -/
theorem c5_cascade_monotone_in_turnaround_witness :
    (calculate_cascade_impact sampleFlights "ORD" "2025-10-15" 90 defaultConfig 45).cascade_affected_flights ≤
      (calculate_cascade_impact sampleFlights "ORD" "2025-10-15" 90 defaultConfig 60).cascade_affected_flights :=
  c5_cascade_monotone_in_turnaround sampleFlights "ORD" "2025-10-15" 90
    defaultConfig (by decide) (by decide)

/-- C6 counterexample: on the sample snapshot the destination list is
XAA then YBB with one match each, so strictly descending match counts
fail (the order is only non increasing; ties are possible). -/
theorem c6_counterexample :
    ¬ List.Pairwise (fun d1 d2 =>
        destMatchCount (cascadeMatches sampleFlights "ORD" "2025-10-15" 90 45) d2 <
          destMatchCount (cascadeMatches sampleFlights "ORD" "2025-10-15" 90 45) d1)
      (calculate_cascade_impact sampleFlights "ORD" "2025-10-15" 90 defaultConfig 45).affected_destinations := by
  decide

/-- C6 amended: the destination list has at most 20 entries and is ordered
by non increasing (descending with ties allowed) per destination match
count. -/
theorem c6_destinations_bounded_sorted (flights : List FlightRecord)
    (airport date : String) (delay : ℚ) (cfg : CostConfig) (minTurn : ℕ) :
    (calculate_cascade_impact flights airport date delay cfg minTurn).affected_destinations.length ≤ 20 ∧
    List.Pairwise (fun d1 d2 =>
        destMatchCount (cascadeMatches flights airport date delay minTurn) d2 ≤
          destMatchCount (cascadeMatches flights airport date delay minTurn) d1)
      (calculate_cascade_impact flights airport date delay cfg minTurn).affected_destinations := by
  constructor
  · show ((affected_dests flights airport date delay minTurn).take 20).length ≤ 20
    rw [List.length_take]
    exact min_le_left _ _
  · show List.Pairwise _ ((affected_dests flights airport date delay minTurn).take 20)
    exact List.Pairwise.take (pairwise_affected_dests flights airport date delay minTurn)

/-- C10: every accepted match has inbound delay above 20 minutes, so the
15 minute prefilter on inbound candidates is invisible: it yields exactly
the matches, the cascade count and the destination rows that the plain
positive delay candidate set yields. -/
theorem c10_prefilter_equivalent (flights : List FlightRecord)
    (airport date : String) (delay : ℚ) (minTurn : ℕ) :
    ((cascadeMatches flights airport date delay minTurn).all
        (fun m => decide (20 < m.inbound_delay)) = true) ∧
    cascadeMatches flights airport date delay minTurn =
      cascadeMatchesAllPositive flights airport date delay minTurn ∧
    n_cascade flights airport date delay minTurn =
      ((sortedDestCounts (cascadeMatchesAllPositive flights airport date delay minTurn)).map Prod.snd).sum ∧
    sortedDestCounts (cascadeMatches flights airport date delay minTurn) =
      sortedDestCounts (cascadeMatchesAllPositive flights airport date delay minTurn) := by
  have heq := cascadeMatches_eq_allPositive flights airport date delay minTurn
  refine ⟨?_, heq, ?_, ?_⟩
  · rw [List.all_eq_true]
    intro m hm
    obtain ⟨o, a, hc, rfl⟩ := mem_cascadeMatches hm
    apply decide_eq_true
    have h20 : (20:ℚ) ≤ (((o.dep_minutes : ℤ) - (a.arr_minutes : ℤ) : ℤ) : ℚ) := by
      exact_mod_cast hc.2.2.1
    have hlt := hc.2.2.2.2
    show (20:ℚ) < a.arr_delay
    linarith
  · unfold n_cascade
    rw [heq]
  · rw [heq]

/-- C4: with airport, date, turnaround, configuration (nonnegative rates,
load factor and seats) and snapshot fixed, the reported total economic
impact is monotonically non decreasing in the trigger delay. -/
theorem c4_impact_monotone_in_delay (flights : List FlightRecord)
    (airport date : String) {d1 d2 : ℚ} (cfg : CostConfig) (minTurn : ℕ)
    (h0 : 0 < d1) (h12 : d1 ≤ d2)
    (hpr : 0 ≤ cfg.passenger_rate) (har : 0 ≤ cfg.airline_ops_rate)
    (hlf : 0 ≤ cfg.load_factor) (hs : 0 ≤ cfg.avg_seats) :
    (calculate_cascade_impact flights airport date d1 cfg minTurn).total_economic_impact ≤
      (calculate_cascade_impact flights airport date d2 cfg minTurn).total_economic_impact := by
  have h0d2 : 0 < d2 := lt_of_lt_of_le h0 h12
  have hn : n_cascade flights airport date d1 minTurn ≤
      n_cascade flights airport date d2 minTurn := by
    rw [n_cascade_eq_length, n_cascade_eq_length]
    exact cascadeMatches_length_mono flights airport date
      (pyInt_mono h0.le h12) le_rfl
  have htf : total_flights flights airport date d1 minTurn ≤
      total_flights flights airport date d2 minTurn :=
    Nat.add_le_add_left hn _
  have htfq : ((total_flights flights airport date d1 minTurn : ℕ) : ℚ) ≤
      ((total_flights flights airport date d2 minTurn : ℕ) : ℚ) :=
    Nat.cast_le.2 htf
  have hprod1 : 0 ≤ ((total_flights flights airport date d1 minTurn : ℕ) : ℚ) *
      cfg.avg_seats * cfg.load_factor :=
    mul_nonneg (mul_nonneg (Nat.cast_nonneg _) hs) hlf
  have hprod : ((total_flights flights airport date d1 minTurn : ℕ) : ℚ) *
      cfg.avg_seats * cfg.load_factor ≤
      ((total_flights flights airport date d2 minTurn : ℕ) : ℚ) *
      cfg.avg_seats * cfg.load_factor :=
    mul_le_mul_of_nonneg_right (mul_le_mul_of_nonneg_right htfq hs) hlf
  have hpax : total_pax flights airport date d1 cfg minTurn ≤
      total_pax flights airport date d2 cfg minTurn := by
    unfold total_pax
    exact pyInt_mono hprod1 hprod
  have hpax1 : 0 ≤ total_pax flights airport date d1 cfg minTurn := by
    unfold total_pax
    exact pyInt_nonneg hprod1
  have hpax2 : 0 ≤ total_pax flights airport date d2 cfg minTurn :=
    le_trans hpax1 hpax
  have heff1 : 0 ≤ avg_delay flights airport date d1 minTurn := by
    unfold avg_delay
    split_ifs
    · exact h0.le
    · exact le_refl 0
  have heff : avg_delay flights airport date d1 minTurn ≤
      avg_delay flights airport date d2 minTurn := by
    unfold avg_delay
    split_ifs with ha hb hb
    · exact h12
    · exact absurd (lt_of_lt_of_le ha htf) hb
    · exact h0d2.le
    · exact le_refl 0
  have hpc : pax_cost flights airport date d1 cfg minTurn ≤
      pax_cost flights airport date d2 cfg minTurn := by
    unfold pax_cost
    apply mul_le_mul_of_nonneg_right _ hpr
    exact mul_le_mul (by exact_mod_cast hpax) heff heff1 (by exact_mod_cast hpax2)
  have hac : airline_cost flights airport date d1 cfg minTurn ≤
      airline_cost flights airport date d2 cfg minTurn := by
    unfold airline_cost
    apply mul_le_mul_of_nonneg_right _ har
    exact mul_le_mul htfq heff heff1 (Nat.cast_nonneg _)
  show round2 (total_cost flights airport date d1 cfg minTurn) ≤
    round2 (total_cost flights airport date d2 cfg minTurn)
  apply round2_mono
  unfold total_cost
  exact add_le_add hpc hac

/-- Witness for C4: sample snapshot, trigger raised from 60 to 120 with
the source configuration (scenario C of the spec). -/
theorem c4_impact_monotone_in_delay_witness :
    (calculate_cascade_impact sampleFlights "ORD" "2025-10-15" 60 defaultConfig 45).total_economic_impact ≤
      (calculate_cascade_impact sampleFlights "ORD" "2025-10-15" 120 defaultConfig 45).total_economic_impact :=
  c4_impact_monotone_in_delay sampleFlights "ORD" "2025-10-15" defaultConfig 45
    (by decide) (by decide) (by decide) (by decide) (by decide) (by decide)

/-- C7: the reported passenger cost is round(total_pax * trigger_delay *
passenger_rate, 2) and the reported airline cost is round(total_flights *
trigger_delay * airline_ops_rate, 2); the caller supplied trigger delay is
the effective delay for every affected flight (when no flight is affected
the code substitutes 0, which costs the same because the counts are 0). -/
theorem c7_costs_from_trigger_delay (flights : List FlightRecord)
    (airport date : String) (delay : ℚ) (cfg : CostConfig) (minTurn : ℕ) :
    (calculate_cascade_impact flights airport date delay cfg minTurn).estimated_passenger_cost =
      round2 (((calculate_cascade_impact flights airport date delay cfg minTurn).total_affected_passengers : ℚ) *
        delay * cfg.passenger_rate) ∧
    (calculate_cascade_impact flights airport date delay cfg minTurn).estimated_airline_cost =
      round2 ((((calculate_cascade_impact flights airport date delay cfg minTurn).directly_affected_flights +
          (calculate_cascade_impact flights airport date delay cfg minTurn).cascade_affected_flights : ℕ) : ℚ) *
        delay * cfg.airline_ops_rate) := by
  by_cases h : 0 < total_flights flights airport date delay minTurn
  · constructor
    · show round2 (pax_cost flights airport date delay cfg minTurn) = _
      unfold pax_cost avg_delay
      rw [if_pos h]
      rfl
    · show round2 (airline_cost flights airport date delay cfg minTurn) = _
      unfold airline_cost avg_delay
      rw [if_pos h]
      rfl
  · have htf : total_flights flights airport date delay minTurn = 0 :=
      Nat.eq_zero_of_not_pos h
    have hpax : total_pax flights airport date delay cfg minTurn = 0 :=
      total_pax_of_zero htf
    constructor
    · show round2 (pax_cost flights airport date delay cfg minTurn) =
        round2 ((total_pax flights airport date delay cfg minTurn : ℚ) *
          delay * cfg.passenger_rate)
      unfold pax_cost avg_delay
      rw [if_neg h, hpax]
      norm_num
    · show round2 (airline_cost flights airport date delay cfg minTurn) =
        round2 (((total_flights flights airport date delay minTurn : ℕ) : ℚ) *
          delay * cfg.airline_ops_rate)
      unfold airline_cost avg_delay
      rw [if_neg h, htf]
      norm_num

/-- C8: when the snapshot holds no row at all for the requested airport
and date the call returns normally with every count and cost equal to
zero and an empty destination list. -/
theorem c8_zero_rows_zero_result (flights : List FlightRecord)
    (airport date : String) (delay : ℚ) (cfg : CostConfig) (minTurn : ℕ)
    (h : ∀ r ∈ flights,
      ¬(r.flightdate = date ∧ (r.dest = airport ∨ r.origin = airport))) :
    (calculate_cascade_impact flights airport date delay cfg minTurn).directly_affected_flights = 0 ∧
    (calculate_cascade_impact flights airport date delay cfg minTurn).cascade_affected_flights = 0 ∧
    (calculate_cascade_impact flights airport date delay cfg minTurn).total_affected_passengers = 0 ∧
    (calculate_cascade_impact flights airport date delay cfg minTurn).estimated_passenger_cost = 0 ∧
    (calculate_cascade_impact flights airport date delay cfg minTurn).estimated_airline_cost = 0 ∧
    (calculate_cascade_impact flights airport date delay cfg minTurn).total_economic_impact = 0 ∧
    (calculate_cascade_impact flights airport date delay cfg minTurn).affected_destinations = [] := by
  have hdc : direct_count flights airport date = 0 := by
    unfold direct_count
    rw [List.length_eq_zero, List.filter_eq_nil_iff]
    intro r hr
    simp only [Bool.and_eq_true, decide_eq_true_eq, not_and]
    rintro ⟨hd, hdt⟩ _
    exact h r hr ⟨hdt, Or.inl hd⟩
  have houtb : outboundFlights flights airport date = [] := by
    unfold outboundFlights
    rw [List.filterMap_eq_nil_iff]
    intro r hr
    rcases r.crsdeptime with _ | t
    · rfl
    · simp only [Bool.and_eq_true, decide_eq_true_eq, ite_eq_right_iff, and_imp]
      intro ho hdt _
      exact absurd ⟨hdt, Or.inr ho⟩ (h r hr)
  have hms : cascadeMatches flights airport date delay minTurn = [] := by
    unfold cascadeMatches
    rw [houtb]
    rfl
  have hn : n_cascade flights airport date delay minTurn = 0 := by
    unfold n_cascade
    rw [hms]
    rfl
  have htf : total_flights flights airport date delay minTurn = 0 := by
    unfold total_flights
    rw [hdc, hn]
  have hpax : total_pax flights airport date delay cfg minTurn = 0 :=
    total_pax_of_zero htf
  refine ⟨hdc, hn, hpax, ?_, ?_, ?_, ?_⟩
  · show round2 (pax_cost flights airport date delay cfg minTurn) = 0
    unfold pax_cost
    rw [hpax]
    norm_num [round2_zero]
  · show round2 (airline_cost flights airport date delay cfg minTurn) = 0
    unfold airline_cost
    rw [htf]
    norm_num [round2_zero]
  · show round2 (total_cost flights airport date delay cfg minTurn) = 0
    unfold total_cost pax_cost airline_cost
    rw [hpax, htf]
    norm_num [round2_zero]
  · show ((affected_dests flights airport date delay minTurn).take 20) = []
    unfold affected_dests
    rw [hms]
    rfl

/-- Witness for C8: the single ORD arrival snapshot holds no row for the
airport LAX on that date. -/
theorem c8_zero_rows_zero_result_witness :
    (calculate_cascade_impact oneArrival "LAX" "2025-10-15" 90 defaultConfig 45).directly_affected_flights = 0 ∧
    (calculate_cascade_impact oneArrival "LAX" "2025-10-15" 90 defaultConfig 45).cascade_affected_flights = 0 ∧
    (calculate_cascade_impact oneArrival "LAX" "2025-10-15" 90 defaultConfig 45).total_affected_passengers = 0 ∧
    (calculate_cascade_impact oneArrival "LAX" "2025-10-15" 90 defaultConfig 45).estimated_passenger_cost = 0 ∧
    (calculate_cascade_impact oneArrival "LAX" "2025-10-15" 90 defaultConfig 45).estimated_airline_cost = 0 ∧
    (calculate_cascade_impact oneArrival "LAX" "2025-10-15" 90 defaultConfig 45).total_economic_impact = 0 ∧
    (calculate_cascade_impact oneArrival "LAX" "2025-10-15" 90 defaultConfig 45).affected_destinations = [] :=
  c8_zero_rows_zero_result oneArrival "LAX" "2025-10-15" 90 defaultConfig 45
    (by decide)

/-- C9: when no inbound arrival for the airport and date carries a non
null positive arrival delay, both the direct and the cascade counts are
zero. -/
theorem c9_no_delayed_arrivals_zero_counts (flights : List FlightRecord)
    (airport date : String) (delay : ℚ) (cfg : CostConfig) (minTurn : ℕ)
    (h : ∀ r ∈ flights, r.dest = airport → r.flightdate = date →
      posDelay r.arrdelayminutes = false) :
    (calculate_cascade_impact flights airport date delay cfg minTurn).directly_affected_flights = 0 ∧
    (calculate_cascade_impact flights airport date delay cfg minTurn).cascade_affected_flights = 0 := by
  have hdc : direct_count flights airport date = 0 := by
    unfold direct_count
    rw [List.length_eq_zero, List.filter_eq_nil_iff]
    intro r hr
    simp only [Bool.and_eq_true, decide_eq_true_eq, not_and]
    rintro ⟨hd, hdt⟩ hpd
    rw [h r hr hd hdt] at hpd
    cases hpd
  have harr : delayedArrivals flights airport date = [] := by
    unfold delayedArrivals arrivalsWhere
    rw [List.filterMap_eq_nil_iff]
    intro r hr
    rcases hcr : r.arrdelayminutes with _ | dl
    · rcases r.crsarrtime with _ | t <;> rfl
    · rcases r.crsarrtime with _ | t
      · rfl
      · simp only [Bool.and_eq_true, decide_eq_true_eq, ite_eq_right_iff, and_imp]
        intro hd hdt h15
        have hp := h r hr hd hdt
        rw [hcr] at hp
        unfold posDelay at hp
        rw [decide_eq_false_iff_not] at hp
        exact absurd (lt_of_lt_of_le (by norm_num) h15) hp
  have hms : cascadeMatches flights airport date delay minTurn = [] := by
    unfold cascadeMatches
    rw [harr]
    simp
  refine ⟨hdc, ?_⟩
  show n_cascade flights airport date delay minTurn = 0
  unfold n_cascade
  rw [hms]
  rfl

/-- Witness for C9: a snapshot whose only ORD arrival landed early. -/
theorem c9_no_delayed_arrivals_zero_counts_witness :
    (calculate_cascade_impact noDelayedArrivals "ORD" "2025-10-15" 90 defaultConfig 45).directly_affected_flights = 0 ∧
    (calculate_cascade_impact noDelayedArrivals "ORD" "2025-10-15" 90 defaultConfig 45).cascade_affected_flights = 0 :=
  c9_no_delayed_arrivals_zero_counts noDelayedArrivals "ORD" "2025-10-15" 90
    defaultConfig 45 (by decide)

/-- C2 counterexample: three direct flights and no cascade give
total_flights = 3, and the source computes int(3 * 160 * 0.87) =
int(417.6) = 417, not round(417.6) = 418 as the claim states. -/
theorem c2_counterexample :
    (calculate_cascade_impact threeArrivals "ORD" "2025-10-15" 90 defaultConfig 45).directly_affected_flights +
      (calculate_cascade_impact threeArrivals "ORD" "2025-10-15" 90 defaultConfig 45).cascade_affected_flights = 3 ∧
    (calculate_cascade_impact threeArrivals "ORD" "2025-10-15" 90 defaultConfig 45).total_affected_passengers ≠
      pyRound (((3:ℕ) : ℚ) * defaultConfig.avg_seats * defaultConfig.load_factor) := by
  have htf : total_flights threeArrivals "ORD" "2025-10-15" 90 45 = 3 := by decide
  refine ⟨htf, ?_⟩
  have hpax : (calculate_cascade_impact threeArrivals "ORD" "2025-10-15" 90 defaultConfig 45).total_affected_passengers = 417 := by
    show total_pax threeArrivals "ORD" "2025-10-15" 90 defaultConfig 45 = 417
    unfold total_pax
    rw [htf, defaultConfig_avg_seats, defaultConfig_load_factor,
      pyInt_eq_floor (by positivity)]
    norm_num
  have hr : pyRound (((3:ℕ) : ℚ) * defaultConfig.avg_seats * defaultConfig.load_factor) = 418 := by
    rw [defaultConfig_avg_seats, defaultConfig_load_factor,
      show ((3:ℕ) : ℚ) * 160 * (87/100) = 2088/5 from by push_cast; norm_num]
    unfold pyRound
    simp only [Int.fract]
    norm_num
  rw [hpax, hr]
  decide

/-- C2 amended: for every invocation and every configuration with
nonnegative seats and load factor, the passenger count is the truncation
of total_flights * avg_seats * load_factor toward zero (the floor, since
the product is nonnegative), and it is always nonnegative. -/
theorem c2_pax_floor (flights : List FlightRecord) (airport date : String)
    (delay : ℚ) (cfg : CostConfig) (minTurn : ℕ)
    (hs : 0 ≤ cfg.avg_seats) (hl : 0 ≤ cfg.load_factor) :
    (calculate_cascade_impact flights airport date delay cfg minTurn).total_affected_passengers =
      ⌊(((calculate_cascade_impact flights airport date delay cfg minTurn).directly_affected_flights +
          (calculate_cascade_impact flights airport date delay cfg minTurn).cascade_affected_flights : ℕ) : ℚ) *
        cfg.avg_seats * cfg.load_factor⌋ ∧
    0 ≤ (calculate_cascade_impact flights airport date delay cfg minTurn).total_affected_passengers := by
  have hnn : 0 ≤ ((total_flights flights airport date delay minTurn : ℕ) : ℚ) *
      cfg.avg_seats * cfg.load_factor :=
    mul_nonneg (mul_nonneg (Nat.cast_nonneg _) hs) hl
  exact ⟨pyInt_eq_floor hnn, pyInt_nonneg hnn⟩

/-- Witness for the amended C2 on the three arrival snapshot with the
source configuration. -/
theorem c2_pax_floor_witness :
    (calculate_cascade_impact threeArrivals "ORD" "2025-10-15" 90 defaultConfig 45).total_affected_passengers =
      ⌊(((calculate_cascade_impact threeArrivals "ORD" "2025-10-15" 90 defaultConfig 45).directly_affected_flights +
          (calculate_cascade_impact threeArrivals "ORD" "2025-10-15" 90 defaultConfig 45).cascade_affected_flights : ℕ) : ℚ) *
        defaultConfig.avg_seats * defaultConfig.load_factor⌋ ∧
    0 ≤ (calculate_cascade_impact threeArrivals "ORD" "2025-10-15" 90 defaultConfig 45).total_affected_passengers :=
  c2_pax_floor threeArrivals "ORD" "2025-10-15" 90 defaultConfig 45
    (by decide) (by decide)

/-- C3 counterexample: one direct flight and the (unvalidated, hence
admissible) trigger delay 1/25000 of a minute.  The unrounded costs are
0.0041144 and 0.0027392 dollars: each reported component rounds to 0.00,
but their exact sum 0.0068536 rounds to 0.01, so the reported total is
not the sum of the two reported components. -/
theorem c3_counterexample :
    (calculate_cascade_impact oneArrival "ORD" "2025-10-15" (1/25000) defaultConfig 45).total_economic_impact ≠
      (calculate_cascade_impact oneArrival "ORD" "2025-10-15" (1/25000) defaultConfig 45).estimated_passenger_cost +
        (calculate_cascade_impact oneArrival "ORD" "2025-10-15" (1/25000) defaultConfig 45).estimated_airline_cost := by
  have houtb : outboundFlights oneArrival "ORD" "2025-10-15" = [] := by decide
  have hms : cascadeMatches oneArrival "ORD" "2025-10-15" (1/25000) 45 = [] := by
    unfold cascadeMatches
    rw [houtb]
    rfl
  have hn : n_cascade oneArrival "ORD" "2025-10-15" (1/25000) 45 = 0 := by
    unfold n_cascade
    rw [hms]
    rfl
  have htf : total_flights oneArrival "ORD" "2025-10-15" (1/25000) 45 = 1 := by
    unfold total_flights
    rw [hn, show direct_count oneArrival "ORD" "2025-10-15" = 1 from by decide]
  have hpax : total_pax oneArrival "ORD" "2025-10-15" (1/25000) defaultConfig 45 = 139 := by
    unfold total_pax
    rw [htf, defaultConfig_avg_seats, defaultConfig_load_factor,
      pyInt_eq_floor (by positivity)]
    norm_num
  have havg : avg_delay oneArrival "ORD" "2025-10-15" (1/25000) 45 = 1/25000 := by
    unfold avg_delay
    rw [htf]
    norm_num
  have hpc : pax_cost oneArrival "ORD" "2025-10-15" (1/25000) defaultConfig 45 = 5143/1250000 := by
    unfold pax_cost
    rw [hpax, havg, defaultConfig_passenger_rate]
    norm_num
  have hac : airline_cost oneArrival "ORD" "2025-10-15" (1/25000) defaultConfig 45 = 214/78125 := by
    unfold airline_cost
    rw [htf, havg, defaultConfig_airline_ops_rate]
    norm_num
  have hrp : round2 ((5143:ℚ)/1250000) = 0 := by
    unfold round2
    rw [show ((5143:ℚ)/1250000) * 100 = 5143/12500 from by norm_num,
      show pyRound ((5143:ℚ)/12500) = 0 from by
        unfold pyRound
        simp only [Int.fract]
        norm_num]
    norm_num
  have hra : round2 ((214:ℚ)/78125) = 0 := by
    unfold round2
    rw [show ((214:ℚ)/78125) * 100 = 856/3125 from by norm_num,
      show pyRound ((856:ℚ)/3125) = 0 from by
        unfold pyRound
        simp only [Int.fract]
        norm_num]
    norm_num
  have hrt : round2 ((5143:ℚ)/1250000 + 214/78125) = 1/100 := by
    unfold round2
    rw [show ((5143:ℚ)/1250000 + 214/78125) * 100 = 8567/12500 from by norm_num,
      show pyRound ((8567:ℚ)/12500) = 1 from by
        unfold pyRound
        simp only [Int.fract]
        norm_num]
    norm_num
  show round2 (total_cost oneArrival "ORD" "2025-10-15" (1/25000) defaultConfig 45) ≠
    round2 (pax_cost oneArrival "ORD" "2025-10-15" (1/25000) defaultConfig 45) +
      round2 (airline_cost oneArrival "ORD" "2025-10-15" (1/25000) defaultConfig 45)
  unfold total_cost
  rw [hpc, hac, hrp, hra, hrt]
  norm_num

/-- C3 amended: the reported total is always the two decimal rounding of
the exact sum of the two unrounded cost components, and whenever the
trigger delay is a whole number of minutes (the source rates are exact
cent amounts) no rounding error arises, so the reported total equals the
sum of the two reported components exactly; all three are built from the
same effective delay. -/
theorem c3_total_decomposition (flights : List FlightRecord)
    (airport date : String) (n : ℕ) (minTurn : ℕ) :
    (calculate_cascade_impact flights airport date (n : ℚ) defaultConfig minTurn).total_economic_impact =
      (calculate_cascade_impact flights airport date (n : ℚ) defaultConfig minTurn).estimated_passenger_cost +
        (calculate_cascade_impact flights airport date (n : ℚ) defaultConfig minTurn).estimated_airline_cost := by
  obtain ⟨m, hm⟩ : ∃ m : ℕ,
      avg_delay flights airport date (n : ℚ) minTurn = (m : ℚ) := by
    unfold avg_delay
    split_ifs
    · exact ⟨n, rfl⟩
    · exact ⟨0, by norm_num⟩
  have hp : pax_cost flights airport date (n : ℚ) defaultConfig minTurn * 100 =
      ((total_pax flights airport date (n : ℚ) defaultConfig minTurn * (m : ℤ) * 74 : ℤ) : ℚ) := by
    unfold pax_cost
    rw [hm, defaultConfig_passenger_rate]
    push_cast
    ring
  have ha : airline_cost flights airport date (n : ℚ) defaultConfig minTurn * 100 =
      (((total_flights flights airport date (n : ℚ) minTurn : ℤ) * (m : ℤ) * 6848 : ℤ) : ℚ) := by
    unfold airline_cost
    rw [hm, defaultConfig_airline_ops_rate]
    push_cast
    ring
  have ht : total_cost flights airport date (n : ℚ) defaultConfig minTurn * 100 =
      ((total_pax flights airport date (n : ℚ) defaultConfig minTurn * (m : ℤ) * 74 +
        (total_flights flights airport date (n : ℚ) minTurn : ℤ) * (m : ℤ) * 6848 : ℤ) : ℚ) := by
    unfold total_cost
    rw [add_mul, hp, ha]
    push_cast
    ring
  show round2 (total_cost flights airport date (n : ℚ) defaultConfig minTurn) =
    round2 (pax_cost flights airport date (n : ℚ) defaultConfig minTurn) +
      round2 (airline_cost flights airport date (n : ℚ) defaultConfig minTurn)
  rw [round2_cents _ hp, round2_cents _ ha, round2_cents _ ht]
  rfl

end SkyDelay
